import Mathlib

/-!
# Shallow embedding of the xrpl-simple-copy-trader pipeline

This file embeds the parts of the repository that the verified claims are
about, and proves (or refutes) each claim against the embedding.

Modelling conventions, used throughout:

* Monetary values (`Decimal` in the source) are embedded as `ℚ`: `Decimal`
  arithmetic on the operations the code performs (add, sub, mul, div,
  compare) is exact decimal arithmetic, which `ℚ` contains.  Python `float`
  arithmetic (used by the wallet scorer and the trust-line clamp) is also
  modelled over `ℚ`; every concrete value a theorem below evaluates is
  exactly representable as a double, so the idealisation and the float
  semantics agree at those points, except where a doc comment says
  otherwise.
* Wall-clock timestamps (`datetime.now()` / `datetime.utcnow()`) become
  explicit `Nat` parameters (seconds); the code never branches on them.
* MongoDB collections become Lean lists in insertion order; `insert_one`
  appends.  The `token_analysis` and `wallet_analysis` collections are only
  ever written through `update_one` filtered by their key fields
  (`{currency, issuer}` resp. `{address}`), so they are embedded as
  association lists keyed by those fields, with `update_one` = update of
  the first matching entry and upsert = append of a fresh document.
* Python truthiness of a possibly-missing string field (`all([...])`) is
  "present and non-empty".
* Logging, index creation and the websocket transport are omitted: they do
  not affect the data the claims talk about.
-/

/-- Python truthiness of an optional string field: `None` and `""` are
falsy, every other string is truthy. -/
def truthyStr : Option String → Bool
  | none => false
  | some s => !s.isEmpty

/-- Value of a non-empty list of decimal digit characters. -/
def digitsVal? : List Char → Option Nat
  | [] => none
  | cs =>
    cs.foldlM (fun acc c => if c.isDigit then some (acc * 10 + (c.toNat - 48)) else none) 0

/-- Split a character list on `'.'` (the parts of `"12.5"`). -/
def splitDot : List Char → List (List Char)
  | [] => [[]]
  | c :: t =>
    match splitDot t with
    | [] => [[]]
    | p :: ps => if c = '.' then [] :: p :: ps else (c :: p) :: ps

/-- Exact value of a plain non-negative decimal literal (`"50"`, `"12.5"`),
the shape the ledger uses for token amounts.  This models both
`Decimal(str(x))` and `float(x)` in the source on such literals; on
malformed input both raise, which callers model as the `none` branch.
(Exponent notation and signs are not produced by the code paths the claims
exercise and are parsed as `none`.) -/
def parseDecimal (s : String) : Option ℚ :=
  match splitDot s.toList with
  | [a] => (digitsVal? a).map (fun n => (n : ℚ))
  | [a, b] =>
    match digitsVal? a, digitsVal? b with
    | some n, some f => some ((n : ℚ) + (f : ℚ) / ((10 : ℚ) ^ b.length))
    | _, _ => none
  | _ => none

/-- Python `str()` of a `float` whose value is the integer `n`: it always
renders a trailing `.0` (`str(1000.0) == "1000.0"`).  Only this integral
case is ever evaluated by the theorems below. -/
def pyFloatStrWhole (n : ℤ) : String := toString n ++ ".0"

/-- Python `str()` of a float, modelled on the rationals: exact on integral
values (the only inputs any theorem below evaluates it at); on non-integral
values Python prints the shortest round-tripping decimal, which we do not
need and render as `num/den`. -/
def pyFloatStr (q : ℚ) : String :=
  if q.den = 1 then pyFloatStrWhole q.num
  else toString q.num ++ "/" ++ toString q.den

/-- First-match lookup in an association list (a `find_one` on an exact
key filter). -/
def lookupKey {κ α : Type} [DecidableEq κ] : List (κ × α) → κ → Option α
  | [], _ => none
  | (k', v) :: t, k => if k' = k then some v else lookupKey t k

/-- `update_one` without upsert: rewrite the first entry with the given
key, leave the list unchanged when no entry matches. -/
def updateFirst {κ α : Type} [DecidableEq κ] (l : List (κ × α)) (k : κ) (f : α → α) :
    List (κ × α) :=
  match l with
  | [] => []
  | (k', v) :: t => if k' = k then (k', f v) :: t else (k', v) :: updateFirst t k f

/-- `update_one` with `upsert=True`: rewrite the first entry with the given
key, or append a fresh document (built from the inhabited default, i.e. an
all-fields-absent document carrying the filter key) when none matches. -/
def upsertFirst {κ α : Type} [DecidableEq κ] [Inhabited α] (l : List (κ × α)) (k : κ)
    (f : α → α) : List (κ × α) :=
  match l with
  | [] => [(k, f default)]
  | (k', v) :: t => if k' = k then (k', f v) :: t else (k', v) :: upsertFirst t k f

theorem lookupKey_updateFirst_self {κ α : Type} [DecidableEq κ]
    (l : List (κ × α)) (k : κ) (f : α → α) :
    lookupKey (updateFirst l k f) k = (lookupKey l k).map f := by
  induction l with
  | nil => simp [lookupKey, updateFirst]
  | cons hd t ih =>
    obtain ⟨k', v⟩ := hd
    by_cases h : k' = k <;> simp [lookupKey, updateFirst, h, ih]

theorem lookupKey_updateFirst_ne {κ α : Type} [DecidableEq κ]
    (l : List (κ × α)) (k k' : κ) (f : α → α) (h : k' ≠ k) :
    lookupKey (updateFirst l k f) k' = lookupKey l k' := by
  induction l with
  | nil => simp [updateFirst]
  | cons hd t ih =>
    obtain ⟨k₀, v⟩ := hd
    by_cases h0 : k₀ = k
    · subst h0
      have hne : ¬(k₀ = k') := fun hk => h hk.symm
      simp [lookupKey, updateFirst, hne]
    · simp [lookupKey, updateFirst, h0, ih]

theorem lookupKey_upsertFirst_self {κ α : Type} [DecidableEq κ] [Inhabited α]
    (l : List (κ × α)) (k : κ) (f : α → α) :
    lookupKey (upsertFirst l k f) k =
      some (f ((lookupKey l k).getD default)) := by
  induction l with
  | nil => simp [lookupKey, upsertFirst]
  | cons hd t ih =>
    obtain ⟨k', v⟩ := hd
    by_cases h : k' = k <;> simp [lookupKey, upsertFirst, h, ih]

theorem lookupKey_upsertFirst_ne {κ α : Type} [DecidableEq κ] [Inhabited α]
    (l : List (κ × α)) (k k' : κ) (f : α → α) (h : k' ≠ k) :
    lookupKey (upsertFirst l k f) k' = lookupKey l k' := by
  induction l with
  | nil =>
    have hne : ¬(k = k') := fun hk => h hk.symm
    simp [lookupKey, upsertFirst, hne]
  | cons hd t ih =>
    obtain ⟨k₀, v⟩ := hd
    by_cases h0 : k₀ = k
    · subst h0
      have hne : ¬(k₀ = k') := fun hk => h hk.symm
      simp [lookupKey, upsertFirst, hne]
    · simp [lookupKey, upsertFirst, h0, ih]

/-! ## `utils/xrpl_transaction_parser.py` — `XRPLTransactionParser` -/

namespace TxParser

/-- A transaction amount-shaped field as delivered on the wire: missing,
a scalar string (a native-coin amount), or an object whose three keys may
each be missing. -/
inductive AmountField where
  | absent
  | scalar (s : String)
  | obj (currency issuer value : Option String)
deriving Repr, DecidableEq

/-- The transaction dictionary, restricted to the keys the handlers read.
A missing key is `none` / `.absent`. -/
structure TxObj where
  txType : Option String := none
  account : Option String := none
  destination : Option String := none
  hash : Option String := none
  limitAmount : AmountField := .absent
  amount : AmountField := .absent
  deliveredAmount : AmountField := .absent
deriving Repr, DecidableEq

/-- `tx.get("LimitAmount", {})` followed by the `isinstance(..., dict)`
check: a scalar aborts, a missing key behaves as the empty dict. -/
def limitFields : AmountField → Option (Option String × Option String × Option String)
  | .scalar _ => none
  | .absent => some (none, none, none)
  | .obj c i v => some (c, i, v)

/-- `TrustSetInfo` (the `timestamp` field, always `datetime.now()`, is
omitted: no claim reads it). -/
structure TrustSetInfo where
  wallet : String
  value : String
  currency : String
  issuer : String
  txHash : String
  testMode : Bool
  isRemoval : Bool
deriving Repr, DecidableEq

/-- `PaymentInfo` (the `timestamp` field, always `datetime.now()`, is
omitted: no claim reads it). -/
structure PaymentInfo where
  buyer : String
  seller : String
  value : ℚ
  deliveredAmount : ℚ
  currency : String
  issuer : String
  txHash : String
  testMode : Bool
deriving Repr, DecidableEq

/-- `XRPLTransactionParser.parse_trust_set`.  Note the source checks
`value is not None` (not truthiness) for the value field. -/
def parse_trust_set (tx : TxObj) (test_mode : Bool) : Option TrustSetInfo :=
  match limitFields tx.limitAmount with
  | none => none
  | some (c, i, v) =>
    if truthyStr c && truthyStr i && v.isSome && truthyStr tx.account then
      some { wallet := tx.account.getD ""
             value := v.getD ""
             currency := c.getD ""
             issuer := i.getD ""
             txHash := tx.hash.getD "unknown"
             testMode := test_mode
             isRemoval := (v.getD "" == "0") }
    else none

/-- `Decimal(str(amount.get("value", "0")))`: a missing key defaults to
zero, a malformed string raises (`none`). -/
def amount_value : Option String → Option ℚ
  | none => some 0
  | some s => parseDecimal s

/-- `delivered_amount = tx.get("DeliveredAmount", amount)` followed by the
dict check: an object's `value` key is re-parsed (defaulting to the
already-parsed amount), a scalar or missing field falls back to the
amount's value. -/
def delivered_value (da : AmountField) (value : ℚ) : Option ℚ :=
  match da with
  | .obj _ _ dv =>
    match dv with
    | none => some value
    | some s => parseDecimal s
  | .scalar _ => some value
  | .absent => some value

/-- `XRPLTransactionParser.parse_payment`.  A scalar or missing `Amount`
is skipped; `Decimal(...)` failure raises and is caught, both modelled by
`none`. -/
def parse_payment (tx : TxObj) (min_value : ℚ) (test_mode : Bool) : Option PaymentInfo :=
  match tx.amount with
  | .obj c i v =>
    match amount_value v with
    | none => none              -- `Decimal` raised; caught by the handler
    | some value =>
      if !(truthyStr c && truthyStr i && truthyStr tx.destination && truthyStr tx.account)
          || value < min_value then
        none
      else
        match delivered_value tx.deliveredAmount value with
        | none => none
        | some actual =>
          some { buyer := tx.destination.getD ""
                 seller := tx.account.getD ""
                 value := value
                 deliveredAmount := actual
                 currency := c.getD ""
                 issuer := i.getD ""
                 txHash := tx.hash.getD "unknown"
                 testMode := test_mode }
  | _ => none

/-- The tagged result of `parse_transaction`. -/
inductive ParsedInfo where
  | trustSet (i : TrustSetInfo)
  | payment (p : PaymentInfo)
deriving Repr, DecidableEq

/-- A streamed frame: the `validated` transport flag plus the transaction
object under the `transaction` key (`data.get("transaction", {})`). -/
structure Frame where
  validated : Bool := false
  transaction : TxObj := {}
deriving Repr, DecidableEq

/-- `XRPLTransactionParser.parse_transaction`: the classifier.  The first
component is the kind string the source returns (`tx_type` itself for
other types, which may be `None`). -/
def parse_transaction (data : Frame) (min_payment_value : ℚ) (test_mode : Bool) :
    Option String × Option ParsedInfo :=
  if !data.validated then (some "unvalidated", none)
  else
    let tx := data.transaction
    match tx.txType with
    | some "TrustSet" => (some "TrustSet", (parse_trust_set tx test_mode).map .trustSet)
    | some "Payment" => (some "Payment", (parse_payment tx min_payment_value test_mode).map .payment)
    | t => (t, none)

end TxParser

/-! ## `utils/db_handler.py` — `XRPLDatabase` (the analytics store) -/

namespace UtilsDB

/-- A document of the `trustlines` collection (this variant carries a
`wallet` column). -/
structure TrustlineDoc where
  currency : String
  issuer : String
  wallet : String
  limit : String
  timestamp : Nat
  txHash : String
deriving Repr, DecidableEq

/-- A document of the `purchases` collection. -/
structure TradeDoc where
  currency : String
  issuer : String
  buyer : String
  seller : String
  amount : ℚ
  priceXrp : ℚ
  timestamp : Nat
  txHash : String
deriving Repr, DecidableEq

/-- A document of the `token_analysis` collection; its `{currency, issuer}`
key lives in the association list.  Every field can be absent (documents
are built up by `$set` patches).  `tracking_url`, a derived constant
string, is omitted. -/
structure TokenDoc where
  status : Option String := none
  firstSeenTx : Option String := none
  timestamp : Option Nat := none
  lastUpdated : Option Nat := none
  lastTrade : Option Nat := none
  currentPrice : Option ℚ := none
  currentPriceUpdated : Option Nat := none
  firstPrice : Option ℚ := none
  firstPriceTime : Option Nat := none
  maxPrice : Option ℚ := none
  maxPriceTime : Option Nat := none
  maxPriceUpdated : Option Nat := none
deriving Repr, DecidableEq, Inhabited

/-- A document of the `wallet_analysis` collection; its `address` key
lives in the association list. -/
structure WalletDoc where
  firstSeen : Option Nat := none
  lastActive : Option Nat := none
  alphaScore : Option ℚ := none
  scoreUpdated : Option Nat := none
deriving Repr, DecidableEq, Inhabited

/-- The collections of the `xrpl_monitor` database that the claims read
and write. -/
structure DBState where
  trustlines : List TrustlineDoc := []
  purchases : List TradeDoc := []
  token_analysis : List ((String × String) × TokenDoc) := []
  wallet_analysis : List (String × WalletDoc) := []
deriving Repr, DecidableEq

/-- `$min` on a possibly-absent field: sets it when absent. -/
def minSet (o : Option Nat) (n : Nat) : Option Nat :=
  match o with
  | none => some n
  | some m => some (min m n)

/-- `$max` on a possibly-absent field: sets it when absent. -/
def maxSet (o : Option Nat) (n : Nat) : Option Nat :=
  match o with
  | none => some n
  | some m => some (max m n)

/-- `XRPLDatabase.add_trustline`: unconditionally `insert_one` a new
trust-line document (there is no `tx_hash` lookup, no unique index and no
duplicate check), then upsert the wallet's activity timestamps.  Returns
`True` (the exception branch needs no model: no modelled operation
fails). -/
def add_trustline (db : DBState) (currency issuer wallet limit tx_hash : String)
    (now : Nat) : DBState × Bool :=
  let doc : TrustlineDoc :=
    { currency := currency, issuer := issuer, wallet := wallet, limit := limit,
      timestamp := now, txHash := tx_hash }
  let db := { db with trustlines := db.trustlines ++ [doc] }
  let wa := upsertFirst db.wallet_analysis wallet (fun w =>
    { w with firstSeen := minSet w.firstSeen now,
             lastActive := maxSet w.lastActive now })
  let db := { db with wallet_analysis := wa }
  (db, true)

/-- `XRPLDatabase.update_token_prices` (used by `add_trade`): set the
current price, set the first price when missing, and raise the max price
when missing or exceeded. -/
def update_token_prices (db : DBState) (currency issuer : String)
    (current_price : ℚ) (now : Nat) : DBState × Bool :=
  let token := lookupKey db.token_analysis (currency, issuer)
  let firstMissing : Bool := match token with
    | none => true
    | some t => t.firstPrice.isNone
  let maxCond : Bool := match token with
    | none => true
    | some t =>
      match t.maxPrice with
      | none => true
      | some m => current_price > m
  let ta := upsertFirst db.token_analysis (currency, issuer) (fun t =>
    { t with currentPrice := some current_price,
             lastUpdated := some now,
             firstPrice := if firstMissing then some current_price else t.firstPrice,
             firstPriceTime := if firstMissing then some now else t.firstPriceTime,
             maxPrice := if maxCond then some current_price else t.maxPrice,
             maxPriceTime := if maxCond then some now else t.maxPriceTime })
  let db := { db with token_analysis := ta }
  (db, true)

/-- `XRPLDatabase.add_trade`: reject empty or `"null"` addresses, insert
the purchase unconditionally (again: no `tx_hash` dedup), update the price
tracking, then set the token's status to `"active"` (an `update_one`
without upsert), and bump the traders' activity timestamps.
(The corner where the `update_many` upsert on an `$in` filter would insert
an address-less document is not modelled; no claim touches it.) -/
def add_trade (db : DBState) (currency issuer buyer seller : String)
    (amount price_xrp : ℚ) (tx_hash : String) (now : Nat) : DBState × Bool :=
  if buyer = "" || seller = "" || buyer = "null" || seller = "null" then (db, false)
  else
    let doc : TradeDoc :=
      { currency := currency, issuer := issuer, buyer := buyer, seller := seller,
        amount := amount, priceXrp := price_xrp, timestamp := now, txHash := tx_hash }
    let db := { db with purchases := db.purchases ++ [doc] }
    let db := (update_token_prices db currency issuer price_xrp now).1
    let ta := updateFirst db.token_analysis (currency, issuer) (fun t =>
      { t with status := some "active", lastUpdated := some now,
               lastTrade := some now })
    let db := { db with token_analysis := ta }
    let wa := db.wallet_analysis.map (fun kv =>
      if kv.1 = buyer || kv.1 = seller then
        (kv.1, { kv.2 with lastActive := maxSet kv.2.lastActive now })
      else kv)
    let db := { db with wallet_analysis := wa }
    (db, true)

/-- `XRPLDatabase.mark_token_for_analysis`: upsert the token with status
`"pending"` and its first-seen transaction. -/
def mark_token_for_analysis (db : DBState) (currency issuer tx_hash : String)
    (now : Nat) : DBState × Bool :=
  let ta := upsertFirst db.token_analysis (currency, issuer) (fun t =>
    { t with status := some "pending", firstSeenTx := some tx_hash,
             timestamp := some now, lastUpdated := some now })
  ({ db with token_analysis := ta }, true)

/-- `XRPLDatabase.mark_token_too_old`: set status `"too_old"` on the
existing document (`update_one` without upsert). -/
def mark_token_too_old (db : DBState) (currency issuer : String) (now : Nat) :
    DBState × Bool :=
  let ta := updateFirst db.token_analysis (currency, issuer) (fun t =>
    { t with status := some "too_old", lastUpdated := some now })
  ({ db with token_analysis := ta }, true)

/-- `XRPLDatabase.is_token_too_old`. -/
def is_token_too_old (db : DBState) (currency issuer : String) : Bool :=
  match lookupKey db.token_analysis (currency, issuer) with
  | some t => t.status == some "too_old"
  | none => false

/-- `XRPLDatabase.get_token_max_price`. -/
def get_token_max_price (db : DBState) (currency issuer : String) : Option ℚ :=
  (lookupKey db.token_analysis (currency, issuer)).bind (fun t => t.maxPrice)

/-- `XRPLDatabase.update_token_max_price` (used by the price monitor):
upsert `max_price` unconditionally. -/
def update_token_max_price (db : DBState) (currency issuer : String) (price : ℚ)
    (timestamp : Nat) : DBState :=
  let ta := upsertFirst db.token_analysis (currency, issuer) (fun t =>
    { t with maxPrice := some price, maxPriceUpdated := some timestamp })
  { db with token_analysis := ta }

/-- `XRPLDatabase.update_token_price` (used by the price monitor): upsert
`current_price` unconditionally. -/
def update_token_price (db : DBState) (currency issuer : String) (price : ℚ)
    (timestamp : Nat) : DBState :=
  let ta := upsertFirst db.token_analysis (currency, issuer) (fun t =>
    { t with currentPrice := some price, currentPriceUpdated := some timestamp })
  { db with token_analysis := ta }

/-- `XRPLDatabase.update_wallet_alpha_score`. -/
def update_wallet_alpha_score (db : DBState) (wallet : String) (alpha_score : ℚ)
    (calculation_time : Nat) : DBState × Bool :=
  let wa := upsertFirst db.wallet_analysis wallet (fun w =>
    { w with alphaScore := some alpha_score,
             scoreUpdated := some calculation_time })
  ({ db with wallet_analysis := wa }, true)

/-- `XRPLDatabase.get_token_trustline_count`: trust lines with a non-zero
limit for the token (no dedup: every inserted document counts). -/
def get_token_trustline_count (db : DBState) (currency issuer : String) : Nat :=
  (db.trustlines.filter (fun d =>
    d.currency == currency && d.issuer == issuer && d.limit != "0")).length

/-- `XRPLDatabase.get_token_trustline_position`: one plus the number of
non-zero-limit trust lines at or before the given timestamp. -/
def get_token_trustline_position (db : DBState) (currency issuer : String)
    (timestamp : Nat) : Nat :=
  (db.trustlines.filter (fun d =>
    d.currency == currency && d.issuer == issuer &&
    decide (d.timestamp ≤ timestamp) && d.limit != "0")).length + 1

/-- The `{currency, issuer, timestamp}` projection `get_wallet_trustlines`
returns. -/
structure TrustlineRec where
  currency : String
  issuer : String
  timestamp : Nat
deriving Repr, DecidableEq

/-- Stable insertion of a record into a timestamp-sorted list (keeps the
earlier-inserted record first on ties, like Python's stable sort). -/
def insertByTs (x : TrustlineRec) : List TrustlineRec → List TrustlineRec
  | [] => [x]
  | y :: ys => if y.timestamp < x.timestamp then y :: insertByTs x ys else x :: y :: ys

/-- Stable sort by timestamp (ascending), the `.sort("timestamp",
ASCENDING)` of the queries. -/
def sortByTs : List TrustlineRec → List TrustlineRec
  | [] => []
  | x :: xs => insertByTs x (sortByTs xs)

/-- `XRPLDatabase.get_wallet_trustlines`: the wallet's trust-line records,
projected and sorted by timestamp. -/
def get_wallet_trustlines (db : DBState) (wallet : String) (since : Option Nat) :
    List TrustlineRec :=
  sortByTs ((db.trustlines.filter (fun d =>
    d.wallet == wallet &&
    match since with
    | none => true
    | some s => decide (s ≤ d.timestamp))).map (fun d =>
      { currency := d.currency, issuer := d.issuer, timestamp := d.timestamp }))

/-- Stable insertion of a trade into a timestamp-sorted list. -/
def insertTradeByTs (x : TradeDoc) : List TradeDoc → List TradeDoc
  | [] => [x]
  | y :: ys => if y.timestamp < x.timestamp then y :: insertTradeByTs x ys else x :: y :: ys

/-- Stable sort of trades by timestamp (ascending). -/
def sortTradesByTs : List TradeDoc → List TradeDoc
  | [] => []
  | x :: xs => insertTradeByTs x (sortTradesByTs xs)

/-- Modelled from the spec: `get_wallet_all_trades` is called by
`WalletScorer` but is not defined anywhere under `src/`; §4.2 of the spec
lists the store query `get_wallet_trades(wallet, token_id?)`.  Following
those words (and the sibling `get_wallet_token_trades`, which filters one
token), it returns every trade in which the wallet took part, over all
tokens, sorted by time, with decimal prices. -/
def get_wallet_all_trades (db : DBState) (wallet : String) : List TradeDoc :=
  sortTradesByTs (db.purchases.filter (fun t =>
    t.buyer == wallet || t.seller == wallet))

end UtilsDB

/-! ## `price_monitor.py` — `PriceMonitor` -/

namespace PriceMonitor

open UtilsDB

/-- The per-token body of `PriceMonitor._price_check_loop`, given the
price the order-book query returned (`None` models both "no offers" and a
failed request, in which case the loop `continue`s and writes nothing).
On a found price it reads the previous max, writes the current price, and
replaces the max only when the new price beats the previous max by more
than the hysteresis margin `min_price_change`. -/
def price_check_update (db : DBState) (min_price_change : ℚ)
    (currency issuer : String) (current_price : Option ℚ) (now : Nat) : DBState :=
  match current_price with
  | none => db
  | some p =>
    let prev_max := get_token_max_price db currency issuer
    let db := update_token_price db currency issuer p now
    match prev_max with
    | none => update_token_max_price db currency issuer p now
    | some m =>
      if p > m * (1 + min_price_change) then
        update_token_max_price db currency issuer p now
      else db

/-- Observation: the stored `current_price` of a token (the field
`update_token_price` writes). -/
def current_price_of (db : DBState) (currency issuer : String) : Option ℚ :=
  (lookupKey db.token_analysis (currency, issuer)).bind (fun t => t.currentPrice)

end PriceMonitor

/-! ## `wallet_scorer.py` — `WalletScorer` -/

namespace WalletScorer

open UtilsDB

/-- `min_trades` as constructed (`min_trades: int = 5`, commented
"Minimum trades to be considered").  Nothing in `wallet_scorer.py` ever
reads it — that is claim C7's subject. -/
def min_trades : Nat := 5

/-- `min_roi: float = 2.0`. -/
def min_roi : ℚ := 2

/-- `early_adopter_max: int = 10`. -/
def early_adopter_max : Nat := 10

/-- `WalletScorer._count_early_adoptions`: how many of the wallet's
trust-line records were at position ≤ `early_adopter_max` (counted per
record, not per distinct token). -/
def count_early_adoptions (db : DBState) (trustlines : List TrustlineRec) : Nat :=
  (trustlines.filter (fun tl =>
    decide (get_token_trustline_position db tl.currency tl.issuer tl.timestamp
      ≤ early_adopter_max))).length

/-- The `token_trades` grouping built with `setdefault(...).append(...)`:
an insertion-ordered association from `(currency, issuer)` to the trades
in that token. -/
def groupByToken (ts : List TradeDoc) : List ((String × String) × List TradeDoc) :=
  ts.foldl (fun acc t =>
    let k := (t.currency, t.issuer)
    if (lookupKey acc k).isSome then updateFirst acc k (fun l => l ++ [t])
    else acc ++ [(k, [t])]) []

/-- Python's `** 0.5` on a nonnegative number, modelled exactly on perfect
squares of rationals (every theorem below evaluates it only at `0`); on
non-squares the float result is an irrational approximation that no claim
depends on. -/
def qSqrt (q : ℚ) : ℚ := (Nat.sqrt q.num.toNat : ℚ) / (Nat.sqrt q.den : ℚ)

/-- `WalletScorer._analyze_trading_success`: per traded token, skip when
the stored max price is absent or zero (`if not max_price`), average the
wallet's first three buys, and count the token when the ROI against the
max price reaches `min_roi`.  `none` models the `Decimal` division-by-zero
raise when the average entry price is zero (it propagates to
`_calculate_wallet_score`'s `except`). -/
def analyze_trading_success (db : DBState) (wallet : String) : Option Nat :=
  let trades := get_wallet_all_trades db wallet
  let groups := groupByToken trades
  groups.foldlM (fun acc kv =>
    match get_token_max_price db kv.1.1 kv.1.2 with
    | none => some acc
    | some m =>
      if m = 0 then some acc
      else
        let entry := (sortTradesByTs (kv.2.filter (fun t => t.buyer == wallet))).take 3
        match entry with
        | [] => some acc
        | _ =>
          let avg := (entry.map (fun t => t.priceXrp)).sum / (entry.length : ℚ)
          if avg = 0 then none
          else
            let roi := (m - avg) / avg
            if min_roi ≤ roi then some (acc + 1) else some acc) 0

/-- `WalletScorer._calculate_consistency`: hour gaps between consecutive
trust-line events, their population standard deviation, scaled against a
one-week ceiling. -/
def calculate_consistency (trustlines : List TrustlineRec) : ℚ :=
  match trustlines with
  | [] => 0
  | _ =>
    let sorted := sortByTs trustlines
    let gaps : List ℚ := (sorted.zip sorted.tail).map (fun p =>
      ((p.2.timestamp : ℚ) - (p.1.timestamp : ℚ)) / 3600)
    match gaps with
    | [] => 0
    | _ =>
      let avg := gaps.sum / (gaps.length : ℚ)
      let variance := (gaps.map (fun g => (g - avg) ^ 2)).sum / (gaps.length : ℚ)
      let std_dev := qSqrt variance
      1 - min (std_dev / 168) 1

/-- `WalletScorer._calculate_wallet_score`: the weighted score (40% early
adoption, 40% trading success, 20% consistency — with no clamp), persisted
via `update_wallet_alpha_score` for every wallet with at least one
trust-line record.  The second component is the database after the call;
the `none` branch of `analyze_trading_success` is the `except` branch
(returns `0`, persists nothing). -/
def calculate_wallet_score (db : DBState) (wallet : String) (now : Nat) :
    ℚ × DBState :=
  let trustlines := get_wallet_trustlines db wallet none
  match trustlines with
  | [] => (0, db)
  | _ =>
    let total_tokens := ((trustlines.map (fun t => (t.currency, t.issuer))).eraseDups).length
    let early_adoptions := count_early_adoptions db trustlines
    let early_rate := (early_adoptions : ℚ) / ((max total_tokens 1 : Nat) : ℚ)
    match analyze_trading_success db wallet with
    | none => (0, db)
    | some successful_trades =>
      let trade_success_rate := (successful_trades : ℚ) / ((max total_tokens 1 : Nat) : ℚ)
      let consistency_score := calculate_consistency trustlines
      let score := early_rate * 4 + trade_success_rate * 4 + consistency_score * 2
      (score, (update_wallet_alpha_score db wallet score now).1)

/-- The `_scoring_loop` filter for the alpha file: `if score and
score >= 7` (a zero score is falsy). -/
def alpha_eligible (score : ℚ) : Bool :=
  decide (score ≠ 0) && decide ((7 : ℚ) ≤ score)

end WalletScorer

/-! ## `db_handler.py` (repository root) — the follower/market `XRPLDatabase` -/

namespace MemeDB

/-- A document of this variant's `trustlines` collection: no `wallet`
column, a `test_mode` flag, and the hash stored under `hash`. -/
structure MemeTrustlineDoc where
  currency : String
  issuer : String
  limit : String
  timestamp : Nat
  hash : String
  testMode : Bool
deriving Repr, DecidableEq

/-- A document of `analytics_events`: `{timestamp, event_type, token,
data}` with the free-form `data` dict flattened into optional fields. -/
structure AnalyticsEvent where
  timestamp : Nat
  eventType : String
  tokenCurrency : String
  tokenIssuer : String
  dataWallet : Option String := none
  dataLimit : Option ℚ := none
  dataAmount : Option ℚ := none
  dataPriceXrp : Option ℚ := none
  dataBuyer : Option String := none
  dataSeller : Option String := none
  dataTxHash : Option String := none
deriving Repr, DecidableEq

/-- The collections of this database variant that the claims touch. -/
structure MemeDBState where
  trustlines : List MemeTrustlineDoc := []
  analytics_events : List AnalyticsEvent := []
deriving Repr, DecidableEq

/-- `XRPLDatabase.add_trustline` (root variant): unconditionally
`insert_one` a document carrying the `test_mode` flag; no `tx_hash`
lookup, no dedup.  Returns `True`. -/
def add_trustline (db : MemeDBState) (currency issuer limit tx_hash : String)
    (test_mode : Bool) (now : Nat) : MemeDBState × Bool :=
  let doc : MemeTrustlineDoc :=
    { currency := currency, issuer := issuer, limit := limit, timestamp := now,
      hash := tx_hash, testMode := test_mode }
  ({ db with trustlines := db.trustlines ++ [doc] }, true)

/-- `XRPLDatabase.analytics_add_trust_line`: `_convert_decimal(limit)` may
raise (`none` — the exception propagates to the caller *before* anything
is inserted); otherwise `analytics_add_event("trust_line", ...)` appends
an event.  No dedup here either. -/
def analytics_add_trust_line (db : MemeDBState)
    (currency issuer wallet limit tx_hash : String) (now : Nat) :
    Option (MemeDBState × Bool) :=
  match parseDecimal limit with
  | none => none
  | some q =>
    let ev : AnalyticsEvent :=
      { timestamp := now, eventType := "trust_line", tokenCurrency := currency,
        tokenIssuer := issuer, dataWallet := some wallet, dataLimit := some q,
        dataTxHash := some tx_hash }
    some ({ db with analytics_events := db.analytics_events ++ [ev] }, true)

/-- `XRPLDatabase.analytics_add_trade`: parse the two decimal strings
(raising propagates, `none`), then append a `"trade"` event.  No dedup. -/
def analytics_add_trade (db : MemeDBState) (currency issuer : String)
    (amount price_xrp : String) (buyer seller tx_hash : String) (now : Nat) :
    Option (MemeDBState × Bool) :=
  match parseDecimal amount, parseDecimal price_xrp with
  | some a, some p =>
    let ev : AnalyticsEvent :=
      { timestamp := now, eventType := "trade", tokenCurrency := currency,
        tokenIssuer := issuer, dataAmount := some a, dataPriceXrp := some p,
        dataBuyer := some buyer, dataSeller := some seller,
        dataTxHash := some tx_hash }
    some ({ db with analytics_events := db.analytics_events ++ [ev] }, true)
  | _, _ => none

end MemeDB

/-! ## `memecoin_monitor.py` — `XRPLTokenMonitor` (the follower) -/

namespace Follower

open TxParser MemeDB

/-- The TrustSet transaction `set_trust_line` builds and submits:
`TrustSet(account=..., fee="12", limit_amount=IssuedCurrencyAmount(...))`
with `value = str(trust_limit)` (a Python float rendering). -/
structure Submission where
  account : String
  fee : String
  currency : String
  issuer : String
  value : String
deriving Repr, DecidableEq

/-- `XRPLTokenMonitor.set_trust_line`: in test mode it returns before
building anything; otherwise it clamps `float(limit)` into
`[min_trust_line_amount, max_trust_line_amount]` as
`max(min(limit, max_amount), min_amount)` and submits.  `none` is "no
transaction was built" (test mode, or `float(limit)` raised — the caller
catches it). -/
def set_trust_line (test_mode : Bool) (follower_address : String)
    (min_amount max_amount : ℚ) (currency issuer limit : String) :
    Option Submission :=
  if test_mode then none
  else
    match parseDecimal limit with
    | none => none
    | some l =>
      let trust_limit := max (min l max_amount) min_amount
      some { account := follower_address, fee := "12", currency := currency,
             issuer := issuer, value := pyFloatStr trust_limit }

/-- `XRPLTokenMonitor.handle_trust_set`: process the frame when the target
wallet is its `Account` *or* its `Destination`; require `LimitAmount` to
be a dict with truthy `currency`, `issuer` and `value` (the string `"0"`
is truthy); record the trust line in the database (before any submission
is attempted), then call `set_trust_line`.  Returns the new database and
the submission built, if any. -/
def handle_trust_set (test_mode : Bool) (target_wallet follower_address : String)
    (min_amount max_amount : ℚ) (db : MemeDBState) (tx : TxObj) (now : Nat) :
    MemeDBState × Option Submission :=
  if !(tx.account == some target_wallet || tx.destination == some target_wallet) then
    (db, none)
  else
    match limitFields tx.limitAmount with
    | none => (db, none)
    | some (c, i, v) =>
      if !(truthyStr c && truthyStr i && truthyStr v) then (db, none)
      else
        let currency := c.getD ""
        let issuer := i.getD ""
        let limit := v.getD ""
        let db := (add_trustline db currency issuer limit (tx.hash.getD "Unknown")
          test_mode now).1
        (db, set_trust_line test_mode follower_address min_amount max_amount
          currency issuer limit)

end Follower

/-! ## `market_monitor.py` — `XRPLMarketMonitor` -/

namespace MarketMonitor

open TxParser MemeDB

/-- An entry of the in-memory `self.tokens` dict. -/
structure TokenInfo where
  currency : String
  issuer : String
  first_seen : Nat
  trust_lines : Nat
deriving Repr, DecidableEq

/-- The monitor's in-memory state plus its database: `self.tokens` (an
insertion-ordered dict keyed by `"CUR:ISSUER"`), `self.hot_tokens` (a set,
kept as a duplicate-free list), and the analytics store. -/
structure State where
  tokens : List (String × TokenInfo) := []
  hot_tokens : List String := []
  db : MemeDBState := {}
deriving Repr, DecidableEq

/-- `XRPLMarketMonitor.get_token_key`. -/
def get_token_key (currency issuer : String) : String := currency ++ ":" ++ issuer

/-- `XRPLMarketMonitor.handle_trust_set`: validate the frame fields, store
the analytics event (a `Decimal` raise there propagates and skips the
in-memory update too), then either decrement on a `"0"` limit (never
below zero, and never touching `hot_tokens`) or count the new trust line,
adding the token to `hot_tokens` exactly when the incremented count equals
`min_trust_lines` — a check the discovery branch (`trust_lines = 1`) does
not perform. -/
def handle_trust_set (min_trust_lines : Nat) (s : State) (tx : TxObj) (now : Nat) :
    State :=
  match limitFields tx.limitAmount with
  | none => s
  | some (c, i, v) =>
    if !(truthyStr c && truthyStr i && truthyStr v && truthyStr tx.account) then s
    else
      let currency := c.getD ""
      let issuer := i.getD ""
      let value := v.getD ""
      let wallet := tx.account.getD ""
      let token_key := get_token_key currency issuer
      match analytics_add_trust_line s.db currency issuer wallet value
          (tx.hash.getD "unknown") now with
      | none => s
      | some (db', _) =>
        let s := { s with db := db' }
        if value == "0" then
          match lookupKey s.tokens token_key with
          | none => s
          | some _ =>
            { s with tokens := updateFirst s.tokens token_key (fun t =>
                { t with trust_lines := t.trust_lines - 1 }) }
        else
          match lookupKey s.tokens token_key with
          | none =>
            { s with tokens := s.tokens ++ [(token_key,
                { currency := currency, issuer := issuer, first_seen := now,
                  trust_lines := 1 })] }
          | some info =>
            let newCount := info.trust_lines + 1
            let s := { s with tokens := updateFirst s.tokens token_key (fun t =>
                { t with trust_lines := t.trust_lines + 1 }) }
            if newCount = min_trust_lines then
              if s.hot_tokens.contains token_key then s
              else { s with hot_tokens := s.hot_tokens ++ [token_key] }
            else s

/-- Fold a stream of validated TrustSet frames (with their arrival times)
through the handler, from the monitor's initial state. -/
def run (min_trust_lines : Nat) (evs : List (TxObj × Nat)) : State :=
  evs.foldl (fun s e => handle_trust_set min_trust_lines s e.1 e.2) {}

/-- Observation: the in-memory trust-line count of a token key (`0` when
the token was never seen). -/
def trust_line_count (s : State) (k : String) : Nat :=
  ((lookupKey s.tokens k).map (fun t => t.trust_lines)).getD 0

end MarketMonitor

/-! ## Claim C6 — Payment classification in the parser -/

/-- C6 (counterexample): a validated frame whose transaction is a Payment
with a scalar (native-coin) amount is not classified as `Other`: the
parser returns the kind `"Payment"` (with no event). -/
theorem C6_counterexample :
    (TxParser.parse_transaction
      { validated := true,
        transaction := { txType := some "Payment", amount := .scalar "5000000",
                         account := some "rSeller", destination := some "rBuyer",
                         hash := some "h1" } } 1000 false)
        = (some "Payment", none)
    ∧ (some "Payment" : Option String) ≠ some "Other" := by
  constructor
  · with_unfolding_all rfl
  · decide

/-- C6 (amended): for every validated frame whose transaction is a
Payment, the parser returns the kind string `"Payment"` in every case; it
yields no event when the amount is a scalar, or when the parsed token
value is strictly below the configured minimum; and it yields a populated
Payment event when the amount object and the addresses are well-formed and
the value reaches the minimum. -/
theorem C6_payment_classification (tx : TxParser.TxObj) (minVol : ℚ) (tm : Bool)
    (htype : tx.txType = some "Payment") :
    (TxParser.parse_transaction { validated := true, transaction := tx } minVol tm).1
        = some "Payment"
    ∧ (∀ s, tx.amount = .scalar s →
        (TxParser.parse_transaction { validated := true, transaction := tx } minVol tm).2
          = none)
    ∧ (∀ c i v q, tx.amount = .obj c i v → TxParser.amount_value v = some q →
        q < minVol →
        (TxParser.parse_transaction { validated := true, transaction := tx } minVol tm).2
          = none)
    ∧ (∀ c i v q a, tx.amount = .obj c i v → TxParser.amount_value v = some q →
        (truthyStr c && truthyStr i && truthyStr tx.destination
          && truthyStr tx.account) = true →
        ¬ q < minVol → TxParser.delivered_value tx.deliveredAmount q = some a →
        (TxParser.parse_transaction { validated := true, transaction := tx } minVol tm).2
          = some (.payment
              { buyer := tx.destination.getD "", seller := tx.account.getD "",
                value := q, deliveredAmount := a, currency := c.getD "",
                issuer := i.getD "", txHash := tx.hash.getD "unknown",
                testMode := tm })) := by
  have hpt : TxParser.parse_transaction { validated := true, transaction := tx } minVol tm
      = (some "Payment", (TxParser.parse_payment tx minVol tm).map .payment) := by
    simp [TxParser.parse_transaction, htype]
  refine ⟨by rw [hpt], ?_, ?_, ?_⟩
  · intro s hs
    rw [hpt]
    simp [TxParser.parse_payment, hs]
  · intro c i v q hobj hval hlt
    rw [hpt]
    simp [TxParser.parse_payment, hobj, hval, hlt]
  · intro c i v q a hobj hval htruthy hge hdel
    rw [hpt]
    simp [TxParser.parse_payment, hobj, hval, htruthy, hge, hdel]

/-- C6 witness: the amended classification applied to a concrete
below-threshold token payment. -/
theorem C6_payment_classification_witness :
    (TxParser.parse_transaction
      { validated := true,
        transaction := { txType := some "Payment",
                         amount := .obj (some "TST") (some "rIss") (some "500"),
                         account := some "rS", destination := some "rB",
                         hash := some "h2" } } 1000 false).2 = none :=
  (C6_payment_classification
      { txType := some "Payment",
        amount := .obj (some "TST") (some "rIss") (some "500"),
        account := some "rS", destination := some "rB", hash := some "h2" }
      1000 false rfl).2.2.1 (some "TST") (some "rIss") (some "500") 500 rfl
    (by with_unfolding_all rfl) (by norm_num)

/-! ## Claims C4, C5, C10 — the follower's TrustSet handling -/

/-- C4 (counterexample): the claim says only frames whose `Account` is the
target wallet with a non-zero limit are processed.  But a frame whose
`Destination` (only) is the target wallet is recorded and triggers a
submission, and so is a frame with limit value `"0"`. -/
theorem C4_counterexample :
    ((Follower.handle_trust_set false "rTarget" "rFollower" 1000 10000 {}
        { txType := some "TrustSet", account := some "rOther",
          destination := some "rTarget", hash := some "hD",
          limitAmount := .obj (some "TST") (some "rIss") (some "100") } 0).2.isSome
      = true)
    ∧ ((Follower.handle_trust_set false "rTarget" "rFollower" 1000 10000 {}
        { txType := some "TrustSet", account := some "rOther",
          destination := some "rTarget", hash := some "hD",
          limitAmount := .obj (some "TST") (some "rIss") (some "100") } 0).1.trustlines.length
      = 1)
    ∧ ((Follower.handle_trust_set false "rTarget" "rFollower" 1000 10000 {}
        { txType := some "TrustSet", account := some "rTarget",
          hash := some "hZ",
          limitAmount := .obj (some "TST") (some "rIss") (some "0") } 0).2.isSome
      = true)
    ∧ ((Follower.handle_trust_set false "rTarget" "rFollower" 1000 10000 {}
        { txType := some "TrustSet", account := some "rTarget",
          hash := some "hZ",
          limitAmount := .obj (some "TST") (some "rIss") (some "0") } 0).1.trustlines.length
      = 1) := by
  refine ⟨?_, ?_, ?_, ?_⟩ <;> with_unfolding_all rfl

/-- C4 (amended): in live mode the follower records the trust line and
initiates its mirrored submission exactly when the frame's `Account` *or*
`Destination` equals the target wallet and the `LimitAmount` object has
non-empty currency, issuer and value — the value `"0"` included (the
submission additionally requires the value to parse as a number; real
ledger values always do). -/
theorem C4_amended (target fA : String) (lo hi : ℚ) (db : MemeDB.MemeDBState)
    (tx : TxParser.TxObj) (now : Nat) :
    ((tx.account ≠ some target ∧ tx.destination ≠ some target) →
      Follower.handle_trust_set false target fA lo hi db tx now = (db, none))
    ∧ (∀ c i v, TxParser.limitFields tx.limitAmount = some (c, i, v) →
        (truthyStr c && truthyStr i && truthyStr v) = false →
        Follower.handle_trust_set false target fA lo hi db tx now = (db, none))
    ∧ (∀ c i v l, (tx.account = some target ∨ tx.destination = some target) →
        TxParser.limitFields tx.limitAmount = some (c, i, v) →
        (truthyStr c && truthyStr i && truthyStr v) = true →
        parseDecimal (v.getD "") = some l →
        (Follower.handle_trust_set false target fA lo hi db tx now).1.trustlines
            = db.trustlines ++ [{ currency := c.getD "", issuer := i.getD "",
                                  limit := v.getD "", timestamp := now,
                                  hash := tx.hash.getD "Unknown", testMode := false }]
          ∧ (Follower.handle_trust_set false target fA lo hi db tx now).2
            = some { account := fA, fee := "12", currency := c.getD "",
                     issuer := i.getD "", value := pyFloatStr (max (min l hi) lo) }) := by
  refine ⟨?_, ?_, ?_⟩
  · intro ⟨h1, h2⟩
    simp [Follower.handle_trust_set, h1, h2]
  · intro c i v hlf htr
    simp [Follower.handle_trust_set, hlf, htr]
  · intro c i v l hacc hlf htr hparse
    have hg : (tx.account == some target || tx.destination == some target) = true := by
      rcases hacc with h | h <;> simp [h]
    constructor
    · simp [Follower.handle_trust_set, hg, hlf, htr, MemeDB.add_trustline]
    · simp [Follower.handle_trust_set, hg, hlf, htr, Follower.set_trust_line, hparse,
        MemeDB.add_trustline]

/-- C4 witness: the amended acceptance condition on a concrete
`Account`-matching frame. -/
theorem C4_amended_witness :
    (Follower.handle_trust_set false "rT" "rF" 1000 10000 {}
      { txType := some "TrustSet", account := some "rT", hash := some "hW",
        limitAmount := .obj (some "TST") (some "rIss") (some "50") } 7).2
      = some { account := "rF", fee := "12", currency := "TST", issuer := "rIss",
               value := pyFloatStr (max (min 50 10000) 1000) } :=
  ((C4_amended "rT" "rF" 1000 10000 {}
      { txType := some "TrustSet", account := some "rT", hash := some "hW",
        limitAmount := .obj (some "TST") (some "rIss") (some "50") } 7).2.2
    (some "TST") (some "rIss") (some "50") 50 (Or.inl rfl) rfl rfl
    (by with_unfolding_all rfl)).2

/-- C5 (counterexample): for an observed limit of 50 with bounds
[1000, 10000] the follower submits `value = "1000.0"` (the `str()` of the
Python float 1000.0), not `"1000"` as the claim states. -/
theorem C5_counterexample :
    (Follower.handle_trust_set false "rTarget" "rF" 1000 10000 {}
      { txType := some "TrustSet", account := some "rTarget", hash := some "h4",
        limitAmount := .obj (some "TST") (some "rIss") (some "50") } 0).2
      = some { account := "rF", fee := "12", currency := "TST", issuer := "rIss",
               value := "1000.0" }
    ∧ "1000.0" ≠ "1000" := by
  constructor
  · with_unfolding_all rfl
  · decide

/-- C5 (amended): the submitted limit is numerically the clamp
`clamp(L, min_trust_line_amount, max_trust_line_amount)` (computed as
`max(min(L, max), min)`, which equals the clamp whenever `min ≤ max`),
rendered as a Python float string; for the 50/1000/10000 scenario that
string is `"1000.0"`. -/
theorem C5_clamp (fA : String) (lo hi : ℚ) (hlohi : lo ≤ hi) :
    (∀ currency issuer limit l, parseDecimal limit = some l →
      Follower.set_trust_line false fA lo hi currency issuer limit
        = some { account := fA, fee := "12", currency := currency, issuer := issuer,
                 value := pyFloatStr (min hi (max lo l)) })
    ∧ Follower.set_trust_line false fA 1000 10000 "TST" "rIss" "50"
        = some { account := fA, fee := "12", currency := "TST", issuer := "rIss",
                 value := "1000.0" } := by
  constructor
  · intro currency issuer limit l hp
    have hclamp : max (min l hi) lo = min hi (max lo l) := by
      simp only [min_def, max_def]
      split_ifs <;> first | rfl | linarith
    simp [Follower.set_trust_line, hp, hclamp]
  · with_unfolding_all rfl

/-- C5 witness: the amended clamp applied to a concrete in-range limit. -/
theorem C5_clamp_witness :
    Follower.set_trust_line false "rF" 1000 10000 "TST" "rIss" "2000"
      = some { account := "rF", fee := "12", currency := "TST", issuer := "rIss",
               value := pyFloatStr (min 10000 (max 1000 2000)) } :=
  (C5_clamp "rF" 1000 10000 (by norm_num)).1 "TST" "rIss" "2000" 2000
    (by with_unfolding_all rfl)

/-- C10 (confirmed): for every frame, test mode yields no submission, and
the database after the frame is identical to live mode's except for the
`test_mode` flag: the analytics events agree, the trust-line collections
agree once the flag is erased, and every newly inserted record is the
live-mode record with `test_mode = true`. -/
theorem C10_test_mode (target fA : String) (lo hi : ℚ) (db : MemeDB.MemeDBState)
    (tx : TxParser.TxObj) (now : Nat) :
    (Follower.handle_trust_set true target fA lo hi db tx now).2 = none
    ∧ (Follower.handle_trust_set true target fA lo hi db tx now).1.analytics_events
        = (Follower.handle_trust_set false target fA lo hi db tx now).1.analytics_events
    ∧ (Follower.handle_trust_set true target fA lo hi db tx now).1.trustlines.map
        (fun d => { d with testMode := false })
      = (Follower.handle_trust_set false target fA lo hi db tx now).1.trustlines.map
        (fun d => { d with testMode := false })
    ∧ (Follower.handle_trust_set true target fA lo hi db tx now).1.trustlines.drop
        db.trustlines.length
      = ((Follower.handle_trust_set false target fA lo hi db tx now).1.trustlines.drop
        db.trustlines.length).map (fun d => { d with testMode := true }) := by
  unfold Follower.handle_trust_set
  by_cases hg : (tx.account == some target || tx.destination == some target) = true
  · rw [hg]
    cases hlf : TxParser.limitFields tx.limitAmount with
    | none => simp
    | some civ =>
      obtain ⟨c, i, v⟩ := civ
      by_cases htr : (truthyStr c && truthyStr i && truthyStr v) = true
      · simp [htr, MemeDB.add_trustline, Follower.set_trust_line, List.drop_left]
      · rw [Bool.not_eq_true] at htr
        simp [htr]
  · rw [Bool.not_eq_true] at hg
    rw [hg]
    simp

/-! ## Claim C2 — hot-token latching in the market monitor -/

theorem lookupKey_append {κ α : Type} [DecidableEq κ]
    (l l' : List (κ × α)) (k : κ) :
    lookupKey (l ++ l') k =
      match lookupKey l k with
      | some v => some v
      | none => lookupKey l' k := by
  induction l with
  | nil => simp [lookupKey]
  | cons hd t ih =>
    obtain ⟨k₀, v⟩ := hd
    by_cases h : k₀ = k <;> simp [lookupKey, h, ih]

/-- The hot-token invariant: every token whose in-memory count has reached
the threshold is in the hot set. -/
def MarketMonitor.HotInv (thr : Nat) (s : MarketMonitor.State) : Prop :=
  ∀ k, thr ≤ MarketMonitor.trust_line_count s k → k ∈ s.hot_tokens

theorem MarketMonitor.hot_mono_step (thr : Nat) (s : MarketMonitor.State)
    (tx : TxParser.TxObj) (now : Nat) (k : String) (hk : k ∈ s.hot_tokens) :
    k ∈ (MarketMonitor.handle_trust_set thr s tx now).hot_tokens := by
  unfold MarketMonitor.handle_trust_set
  dsimp only
  repeat' split
  all_goals first
    | exact hk
    | (exact List.mem_append_left _ hk)

theorem MarketMonitor.hotInv_step (thr : Nat) (hthr : 2 ≤ thr)
    (s : MarketMonitor.State) (tx : TxParser.TxObj) (now : Nat)
    (hs : MarketMonitor.HotInv thr s) :
    MarketMonitor.HotInv thr (MarketMonitor.handle_trust_set thr s tx now) := by
  intro k hk
  unfold MarketMonitor.handle_trust_set at hk ⊢
  dsimp only at hk ⊢
  cases hlf : TxParser.limitFields tx.limitAmount with
  | none =>
    rw [hlf] at hk
    exact hs k hk
  | some civ =>
    obtain ⟨c, i, v⟩ := civ
    rw [hlf] at hk
    dsimp only at hk ⊢
    by_cases htr : (truthyStr c && truthyStr i && truthyStr v && truthyStr tx.account) = true
    · simp only [htr, Bool.not_true, Bool.false_eq_true, if_false] at hk ⊢
      cases hdb : MemeDB.analytics_add_trust_line s.db (c.getD "") (i.getD "")
          (tx.account.getD "") (v.getD "") (tx.hash.getD "unknown") now with
      | none =>
        rw [hdb] at hk
        exact hs k hk
      | some dbr =>
        obtain ⟨db', rb⟩ := dbr
        rw [hdb] at hk
        dsimp only at hk ⊢
        by_cases hv : ((v.getD "") == "0") = true
        · simp only [hv, if_true] at hk ⊢
          cases hlk : lookupKey s.tokens
              (MarketMonitor.get_token_key (c.getD "") (i.getD "")) with
          | none =>
            rw [hlk] at hk
            exact hs k hk
          | some info =>
            rw [hlk] at hk
            dsimp only at hk ⊢
            apply hs k
            by_cases hkk : k = MarketMonitor.get_token_key (c.getD "") (i.getD "")
            · subst hkk
              simp [MarketMonitor.trust_line_count, lookupKey_updateFirst_self, hlk] at hk
              simp [MarketMonitor.trust_line_count, hlk]
              omega
            · simp only [MarketMonitor.trust_line_count] at hk ⊢
              rw [lookupKey_updateFirst_ne _ _ _ _ hkk] at hk
              exact hk
        · rw [Bool.not_eq_true] at hv
          simp only [hv, Bool.false_eq_true, if_false] at hk ⊢
          cases hlk : lookupKey s.tokens
              (MarketMonitor.get_token_key (c.getD "") (i.getD "")) with
          | none =>
            rw [hlk] at hk
            dsimp only at hk ⊢
            by_cases hkk : k = MarketMonitor.get_token_key (c.getD "") (i.getD "")
            · subst hkk
              simp only [MarketMonitor.trust_line_count, lookupKey_append, hlk] at hk
              simp [lookupKey] at hk
              omega
            · apply hs k
              simp only [MarketMonitor.trust_line_count, lookupKey_append, hlk] at hk
              have hsing : lookupKey [(MarketMonitor.get_token_key (c.getD "") (i.getD ""),
                  ({ currency := c.getD "", issuer := i.getD "", first_seen := now,
                     trust_lines := 1 } : MarketMonitor.TokenInfo))] k = none := by
                simp [lookupKey, Ne.symm hkk]
              rw [hsing] at hk
              cases hx : lookupKey s.tokens k with
              | none =>
                rw [hx] at hk
                simp at hk
                omega
              | some t =>
                rw [hx] at hk
                simpa [MarketMonitor.trust_line_count, hx] using hk
          | some info =>
            rw [hlk] at hk
            dsimp only at hk ⊢
            by_cases hnc : info.trust_lines + 1 = thr
            · rw [if_pos hnc] at hk ⊢
              by_cases hct : (s.hot_tokens.contains
                  (MarketMonitor.get_token_key (c.getD "") (i.getD ""))) = true
              · rw [if_pos hct] at hk ⊢
                dsimp only at hk ⊢
                by_cases hkk : k = MarketMonitor.get_token_key (c.getD "") (i.getD "")
                · subst hkk
                  simpa using hct
                · apply hs k
                  simp only [MarketMonitor.trust_line_count] at hk ⊢
                  rw [lookupKey_updateFirst_ne _ _ _ _ hkk] at hk
                  exact hk
              · rw [if_neg (by simpa using hct)] at hk ⊢
                dsimp only at hk ⊢
                by_cases hkk : k = MarketMonitor.get_token_key (c.getD "") (i.getD "")
                · subst hkk
                  exact List.mem_append_right _ (List.mem_singleton.mpr rfl)
                · apply List.mem_append_left
                  apply hs k
                  simp only [MarketMonitor.trust_line_count] at hk ⊢
                  rw [lookupKey_updateFirst_ne _ _ _ _ hkk] at hk
                  exact hk
            · rw [if_neg hnc] at hk ⊢
              by_cases hkk : k = MarketMonitor.get_token_key (c.getD "") (i.getD "")
              · subst hkk
                apply hs _
                simp [MarketMonitor.trust_line_count, lookupKey_updateFirst_self, hlk] at hk
                simp [MarketMonitor.trust_line_count, hlk]
                omega
              · apply hs k
                simp only [MarketMonitor.trust_line_count] at hk ⊢
                rw [lookupKey_updateFirst_ne _ _ _ _ hkk] at hk
                exact hk
    · rw [Bool.not_eq_true] at htr
      simp only [htr, Bool.not_false, if_true] at hk ⊢
      exact hs k hk

theorem MarketMonitor.hot_mono_fold (thr : Nat) (s : MarketMonitor.State)
    (evs : List (TxParser.TxObj × Nat)) (k : String) (hk : k ∈ s.hot_tokens) :
    k ∈ (evs.foldl (fun s e => MarketMonitor.handle_trust_set thr s e.1 e.2) s).hot_tokens := by
  induction evs generalizing s with
  | nil => exact hk
  | cons e t ih => exact ih _ (MarketMonitor.hot_mono_step thr s e.1 e.2 k hk)

theorem MarketMonitor.hotInv_fold (thr : Nat) (hthr : 2 ≤ thr)
    (s : MarketMonitor.State) (evs : List (TxParser.TxObj × Nat))
    (hs : MarketMonitor.HotInv thr s) :
    MarketMonitor.HotInv thr
      (evs.foldl (fun s e => MarketMonitor.handle_trust_set thr s e.1 e.2) s) := by
  induction evs generalizing s with
  | nil => exact hs
  | cons e t ih => exact ih _ (MarketMonitor.hotInv_step thr hthr s e.1 e.2 hs)

theorem MarketMonitor.hotInv_init (thr : Nat) (hthr : 2 ≤ thr) :
    MarketMonitor.HotInv thr {} := by
  intro k hk
  simp [MarketMonitor.trust_line_count, lookupKey] at hk
  exact absurd hk (by omega)

/-- C2 (counterexample): with hot threshold 1, a single establishment
event brings the token's count to the threshold, yet the hot set stays
empty — the discovery branch performs no hot check. -/
theorem C2_counterexample :
    MarketMonitor.trust_line_count (MarketMonitor.run 1
      [({ txType := some "TrustSet", account := some "rW1", hash := some "h1",
          limitAmount := .obj (some "TST") (some "rIss") (some "1000") }, 0)]) "TST:rIss"
      = 1
    ∧ (MarketMonitor.run 1
      [({ txType := some "TrustSet", account := some "rW1", hash := some "h1",
          limitAmount := .obj (some "TST") (some "rIss") (some "1000") }, 0)]).hot_tokens
      = [] := by
  constructor <;> with_unfolding_all rfl

/-- C2 (amended): hotness is latching for every hot threshold ≥ 2. -/
theorem C2_hot_latching (thr : Nat) (hthr : 2 ≤ thr)
    (pre post : List (TxParser.TxObj × Nat)) (k : String)
    (hreach : thr ≤ MarketMonitor.trust_line_count (MarketMonitor.run thr pre) k) :
    k ∈ (MarketMonitor.run thr (pre ++ post)).hot_tokens := by
  have hmem : k ∈ (MarketMonitor.run thr pre).hot_tokens :=
    MarketMonitor.hotInv_fold thr hthr {} pre (MarketMonitor.hotInv_init thr hthr) k hreach
  rw [MarketMonitor.run, List.foldl_append]
  exact MarketMonitor.hot_mono_fold thr _ post k hmem

/-- C2 witness: threshold 2; two establishments make the token hot and a
subsequent removal leaves it hot. -/
theorem C2_hot_latching_witness :
    "TST:rIss" ∈ (MarketMonitor.run 2
      ([({ txType := some "TrustSet", account := some "rW1", hash := some "h1",
           limitAmount := .obj (some "TST") (some "rIss") (some "1000") }, 0),
        ({ txType := some "TrustSet", account := some "rW2", hash := some "h2",
           limitAmount := .obj (some "TST") (some "rIss") (some "1000") }, 1)] ++
       [({ txType := some "TrustSet", account := some "rW1", hash := some "h3",
           limitAmount := .obj (some "TST") (some "rIss") (some "0") }, 2)])).hot_tokens :=
  C2_hot_latching 2 (by norm_num)
    [({ txType := some "TrustSet", account := some "rW1", hash := some "h1",
        limitAmount := .obj (some "TST") (some "rIss") (some "1000") }, 0),
     ({ txType := some "TrustSet", account := some "rW2", hash := some "h2",
        limitAmount := .obj (some "TST") (some "rIss") (some "1000") }, 1)]
    [({ txType := some "TrustSet", account := some "rW1", hash := some "h3",
        limitAmount := .obj (some "TST") (some "rIss") (some "0") }, 2)]
    "TST:rIss" (of_decide_eq_true (by with_unfolding_all rfl))

/-! ## Claim C3 — max price vs current price under hysteresis -/

/-- C3 (counterexample): sample 100, then 103, with the default 5%
hysteresis: the second update completes without error and stores
`current_price = 103` while `max_price` stays 100 (103 is not more than
5% above 100), so `max_price ≥ current_price` fails. -/
theorem C3_counterexample :
    PriceMonitor.current_price_of
        (PriceMonitor.price_check_update
          (PriceMonitor.price_check_update {} (1/20) "TST" "rIss" (some 100) 0)
          (1/20) "TST" "rIss" (some 103) 1) "TST" "rIss"
      = some 103
    ∧ UtilsDB.get_token_max_price
        (PriceMonitor.price_check_update
          (PriceMonitor.price_check_update {} (1/20) "TST" "rIss" (some 100) 0)
          (1/20) "TST" "rIss" (some 103) 1) "TST" "rIss"
      = some 100
    ∧ ¬ (100 : ℚ) ≥ 103 := by
  refine ⟨?_, ?_, by norm_num⟩
  · with_unfolding_all rfl
  · with_unfolding_all rfl

/-- C3 (amended): after every price update that completes without error
having sampled a price `p ≥ 0` (hysteresis margin `δ ≥ 0`), the stored
state satisfies `current_price = p` and `current_price ≤ max_price ×
(1 + δ)` — the hysteresis gap is the exact bound; `max_price ≥
current_price` itself only holds when the max was replaced. -/
theorem C3_hysteresis_bound (db : UtilsDB.DBState) (δ p : ℚ) (currency issuer : String)
    (now : Nat) (hp : 0 ≤ p) (hδ : 0 ≤ δ) :
    ∃ m : ℚ,
      UtilsDB.get_token_max_price
          (PriceMonitor.price_check_update db δ currency issuer (some p) now)
          currency issuer = some m
      ∧ PriceMonitor.current_price_of
          (PriceMonitor.price_check_update db δ currency issuer (some p) now)
          currency issuer = some p
      ∧ p ≤ m * (1 + δ) := by
  unfold PriceMonitor.price_check_update
  dsimp only
  cases hpm : UtilsDB.get_token_max_price db currency issuer with
  | none =>
    refine ⟨p, ?_, ?_, ?_⟩
    · simp [UtilsDB.get_token_max_price, UtilsDB.update_token_max_price,
        UtilsDB.update_token_price, lookupKey_upsertFirst_self]
    · simp [PriceMonitor.current_price_of, UtilsDB.update_token_max_price,
        UtilsDB.update_token_price, lookupKey_upsertFirst_self]
    · nlinarith
  | some m0 =>
    dsimp only
    by_cases hgt : p > m0 * (1 + δ)
    · rw [if_pos hgt]
      refine ⟨p, ?_, ?_, ?_⟩
      · simp [UtilsDB.get_token_max_price, UtilsDB.update_token_max_price,
          UtilsDB.update_token_price, lookupKey_upsertFirst_self]
      · simp [PriceMonitor.current_price_of, UtilsDB.update_token_max_price,
          UtilsDB.update_token_price, lookupKey_upsertFirst_self]
      · nlinarith
    · rw [if_neg hgt]
      refine ⟨m0, ?_, ?_, ?_⟩
      · simp only [UtilsDB.get_token_max_price, UtilsDB.update_token_price] at hpm ⊢
        simp [lookupKey_upsertFirst_self]
        cases hx : lookupKey db.token_analysis (currency, issuer) with
        | none => rw [hx] at hpm; simp at hpm
        | some t => rw [hx] at hpm; simpa using hpm
      · simp [PriceMonitor.current_price_of, UtilsDB.update_token_price,
          lookupKey_upsertFirst_self]
      · linarith [not_lt.mp hgt]

/-- C3 witness: the hysteresis bound applied to a first sample on an empty
store. -/
theorem C3_hysteresis_bound_witness :
    ∃ m : ℚ,
      UtilsDB.get_token_max_price
          (PriceMonitor.price_check_update {} (1/20) "TST" "rIss" (some 100) 0)
          "TST" "rIss" = some m
      ∧ PriceMonitor.current_price_of
          (PriceMonitor.price_check_update {} (1/20) "TST" "rIss" (some 100) 0)
          "TST" "rIss" = some 100
      ∧ (100 : ℚ) ≤ m * (1 + 1/20) :=
  C3_hysteresis_bound {} (1/20) 100 "TST" "rIss" 0 (by norm_num) (by norm_num)

/-! ## Claim C1 — appends are not deduplicated by tx_hash -/

/-- C1 (counterexample): submitting the identical trust-line event twice
(same `tx_hash`) leaves two records, the second call reports plain
success (`true`, no dupe signal), and the trust-line count double-counts;
likewise for the analytics event stream and for trades. -/
theorem C1_counterexample :
    ((UtilsDB.add_trustline (UtilsDB.add_trustline {} "TST" "rIss" "rW" "1000" "h1" 0).1
        "TST" "rIss" "rW" "1000" "h1" 0).1.trustlines.length = 2)
    ∧ ((UtilsDB.add_trustline (UtilsDB.add_trustline {} "TST" "rIss" "rW" "1000" "h1" 0).1
        "TST" "rIss" "rW" "1000" "h1" 0).2 = true)
    ∧ (UtilsDB.get_token_trustline_count
        (UtilsDB.add_trustline (UtilsDB.add_trustline {} "TST" "rIss" "rW" "1000" "h1" 0).1
          "TST" "rIss" "rW" "1000" "h1" 0).1 "TST" "rIss" = 2)
    ∧ (((MemeDB.analytics_add_trust_line
          (((MemeDB.analytics_add_trust_line {} "TST" "rIss" "rW" "1000" "h1" 0).getD
            ({}, false)).1) "TST" "rIss" "rW" "1000" "h1" 0).getD
            ({}, false)).1.analytics_events.length = 2)
    ∧ ((UtilsDB.add_trade (UtilsDB.add_trade {} "TST" "rIss" "rB" "rS" 5000 1 "h2" 0).1
        "TST" "rIss" "rB" "rS" 5000 1 "h2" 0).1.purchases.length = 2)
    ∧ ((UtilsDB.add_trade (UtilsDB.add_trade {} "TST" "rIss" "rB" "rS" 5000 1 "h2" 0).1
        "TST" "rIss" "rB" "rS" 5000 1 "h2" 0).2 = true) := by
  refine ⟨?_, ?_, ?_, ?_, ?_, ?_⟩ <;> with_unfolding_all rfl

/-- C1 (amended): the store performs no `tx_hash` deduplication — every
append inserts unconditionally and returns success, so a redelivered event
adds a second record and record-derived counters double-count. -/
theorem C1_no_dedup (db : UtilsDB.DBState) (c i w lim h : String) (now : Nat)
    (buyer seller : String) (amt px : ℚ) (h2 : String) (now2 : Nat)
    (hb1 : buyer ≠ "") (hb2 : seller ≠ "") (hb3 : buyer ≠ "null")
    (hb4 : seller ≠ "null") :
    ((UtilsDB.add_trustline db c i w lim h now).1.trustlines
        = db.trustlines ++ [{ currency := c, issuer := i, wallet := w, limit := lim,
                              timestamp := now, txHash := h }]
      ∧ (UtilsDB.add_trustline db c i w lim h now).2 = true)
    ∧ ((UtilsDB.add_trustline (UtilsDB.add_trustline db c i w lim h now).1
          c i w lim h now).1.trustlines.length = db.trustlines.length + 2)
    ∧ (lim ≠ "0" →
        UtilsDB.get_token_trustline_count
          (UtilsDB.add_trustline (UtilsDB.add_trustline db c i w lim h now).1
            c i w lim h now).1 c i
          = UtilsDB.get_token_trustline_count db c i + 2)
    ∧ ((UtilsDB.add_trade db c i buyer seller amt px h2 now2).1.purchases
        = db.purchases ++ [{ currency := c, issuer := i, buyer := buyer, seller := seller,
                             amount := amt, priceXrp := px, timestamp := now2,
                             txHash := h2 }]
      ∧ (UtilsDB.add_trade db c i buyer seller amt px h2 now2).2 = true) := by
  refine ⟨⟨?_, ?_⟩, ?_, ?_, ⟨?_, ?_⟩⟩
  · simp [UtilsDB.add_trustline]
  · simp [UtilsDB.add_trustline]
  · simp [UtilsDB.add_trustline]
  · intro hlim
    simp [UtilsDB.add_trustline, UtilsDB.get_token_trustline_count, List.filter_append,
      hlim]
  · simp [UtilsDB.add_trade, UtilsDB.update_token_prices, hb1, hb2, hb3, hb4]
  · simp [UtilsDB.add_trade, UtilsDB.update_token_prices, hb1, hb2, hb3, hb4]

/-- C1 witness: the amended no-dedup behaviour at a concrete event. -/
theorem C1_no_dedup_witness :
    UtilsDB.get_token_trustline_count
      (UtilsDB.add_trustline (UtilsDB.add_trustline {} "TST" "rIss" "rW" "1000" "h1" 0).1
        "TST" "rIss" "rW" "1000" "h1" 0).1 "TST" "rIss"
      = UtilsDB.get_token_trustline_count {} "TST" "rIss" + 2 :=
  (C1_no_dedup {} "TST" "rIss" "rW" "1000" "h1" 0 "rB" "rS" 5000 1 "h2" 3
    (by decide) (by decide) (by decide) (by decide)).2.2.1 (by decide)

/-! ## Claim C9 — is `too_old` terminal? -/

/-- C9 (counterexample): mark a token pending, then `too_old`; recording a
trade for it then moves its status straight back to `"active"` —
`add_trade` sets the status unconditionally ("Update token status to
active since there's trading activity"). -/
theorem C9_counterexample :
    (UtilsDB.is_token_too_old
      (UtilsDB.mark_token_too_old
        (UtilsDB.mark_token_for_analysis {} "TST" "rIss" "h1" 0).1 "TST" "rIss" 1).1
      "TST" "rIss" = true)
    ∧ (((lookupKey
        (UtilsDB.add_trade
          (UtilsDB.mark_token_too_old
            (UtilsDB.mark_token_for_analysis {} "TST" "rIss" "h1" 0).1 "TST" "rIss" 1).1
          "TST" "rIss" "rB" "rS" 5000 1 "h2" 2).1.token_analysis
        ("TST", "rIss")).bind (fun t => t.status)) = some "active")
    ∧ (UtilsDB.is_token_too_old
        (UtilsDB.add_trade
          (UtilsDB.mark_token_too_old
            (UtilsDB.mark_token_for_analysis {} "TST" "rIss" "h1" 0).1 "TST" "rIss" 1).1
          "TST" "rIss" "rB" "rS" 5000 1 "h2" 2).1
        "TST" "rIss" = false) := by
  refine ⟨?_, ?_, ?_⟩ <;> with_unfolding_all rfl

/-- C9 (amended): `too_old` is preserved by trust-line inserts, price
updates, re-marking, alpha-score writes, and trades of *other* tokens; it
is *not* terminal against `add_trade` for the same token (which sets
`"active"`) nor against `mark_token_for_analysis` (which resets to
`"pending"`). -/
theorem C9_too_old_transitions (db : UtilsDB.DBState) (c i : String)
    (h : UtilsDB.is_token_too_old db c i = true) :
    (∀ c2 i2 w lim hsh now,
        UtilsDB.is_token_too_old (UtilsDB.add_trustline db c2 i2 w lim hsh now).1 c i
          = true)
    ∧ (∀ p ts, UtilsDB.is_token_too_old (UtilsDB.update_token_price db c i p ts) c i
          = true)
    ∧ (∀ p ts, UtilsDB.is_token_too_old (UtilsDB.update_token_max_price db c i p ts) c i
          = true)
    ∧ (∀ ts, UtilsDB.is_token_too_old (UtilsDB.mark_token_too_old db c i ts).1 c i
          = true)
    ∧ (∀ w sc ts,
        UtilsDB.is_token_too_old (UtilsDB.update_wallet_alpha_score db w sc ts).1 c i
          = true)
    ∧ (∀ c2 i2 buyer seller amt px hsh ts, ¬(c2 = c ∧ i2 = i) →
        UtilsDB.is_token_too_old
          (UtilsDB.add_trade db c2 i2 buyer seller amt px hsh ts).1 c i = true)
    ∧ (∀ buyer seller amt px hsh ts, buyer ≠ "" → seller ≠ "" → buyer ≠ "null" →
        seller ≠ "null" →
        ((lookupKey (UtilsDB.add_trade db c i buyer seller amt px hsh ts).1.token_analysis
          (c, i)).bind (fun t => t.status)) = some "active")
    ∧ (∀ hsh ts,
        ((lookupKey (UtilsDB.mark_token_for_analysis db c i hsh ts).1.token_analysis
          (c, i)).bind (fun t => t.status)) = some "pending") := by
  obtain ⟨t0, ht0, hst0⟩ : ∃ t0, lookupKey db.token_analysis (c, i) = some t0
      ∧ t0.status = some "too_old" := by
    unfold UtilsDB.is_token_too_old at h
    cases hx : lookupKey db.token_analysis (c, i) with
    | none => rw [hx] at h; simp at h
    | some t =>
      rw [hx] at h
      simp at h
      exact ⟨t, rfl, h⟩
  have hkeyne : ∀ c2 i2, ¬(c2 = c ∧ i2 = i) → ((c2, i2) : String × String) ≠ (c, i) := by
    intro c2 i2 hne heq
    exact hne ⟨congrArg Prod.fst heq, congrArg Prod.snd heq⟩
  refine ⟨?_, ?_, ?_, ?_, ?_, ?_, ?_, ?_⟩
  · intro c2 i2 w lim hsh now
    simpa [UtilsDB.add_trustline, UtilsDB.is_token_too_old] using h
  · intro p ts
    simp [UtilsDB.update_token_price, UtilsDB.is_token_too_old,
      lookupKey_upsertFirst_self, ht0, hst0]
  · intro p ts
    simp [UtilsDB.update_token_max_price, UtilsDB.is_token_too_old,
      lookupKey_upsertFirst_self, ht0, hst0]
  · intro ts
    simp [UtilsDB.mark_token_too_old, UtilsDB.is_token_too_old,
      lookupKey_updateFirst_self, ht0]
  · intro w sc ts
    simpa [UtilsDB.update_wallet_alpha_score, UtilsDB.is_token_too_old] using h
  · intro c2 i2 buyer seller amt px hsh ts hne
    by_cases hval : buyer = "" ∨ seller = "" ∨ buyer = "null" ∨ seller = "null"
    · unfold UtilsDB.add_trade
      rcases hval with hv | hv | hv | hv <;> simp [hv] <;> exact h
    · push_neg at hval
      obtain ⟨hv1, hv2, hv3, hv4⟩ := hval
      simp [UtilsDB.add_trade, UtilsDB.update_token_prices, hv1, hv2, hv3, hv4,
        UtilsDB.is_token_too_old, lookupKey_updateFirst_ne _ _ _ _ (Ne.symm (hkeyne c2 i2 hne)),
        lookupKey_upsertFirst_ne _ _ _ _ (Ne.symm (hkeyne c2 i2 hne)), ht0, hst0]
  · intro buyer seller amt px hsh ts hv1 hv2 hv3 hv4
    simp [UtilsDB.add_trade, UtilsDB.update_token_prices, hv1, hv2, hv3, hv4,
      lookupKey_updateFirst_self, lookupKey_upsertFirst_self, ht0]
  · intro hsh ts
    simp [UtilsDB.mark_token_for_analysis, lookupKey_upsertFirst_self, ht0]

/-- C9 witness: the amended transition behaviour at a concrete too-old
token. -/
theorem C9_too_old_transitions_witness :
    ((lookupKey
      (UtilsDB.add_trade
        (UtilsDB.mark_token_too_old
          (UtilsDB.mark_token_for_analysis {} "TST" "rIss" "h1" 0).1 "TST" "rIss" 1).1
        "TST" "rIss" "rB" "rS" 5000 1 "h2" 2).1.token_analysis
      ("TST", "rIss")).bind (fun t => t.status)) = some "active" :=
  (C9_too_old_transitions
      (UtilsDB.mark_token_too_old
        (UtilsDB.mark_token_for_analysis {} "TST" "rIss" "h1" 0).1 "TST" "rIss" 1).1
      "TST" "rIss" (by with_unfolding_all rfl)).2.2.2.2.2.2.1
    "rB" "rS" 5000 1 "h2" 2 (by decide) (by decide) (by decide) (by decide)

/-! ## Claim C7 — `min_trades` is never enforced -/

/-- C7 (evaluation at the failing input): `min_trades` is 5, yet a wallet
with a single trust-line record gets a score computed (4.0) and persisted
to `wallet_analysis`; with one profitable trade on its one token the same
wallet scores 8.0 and passes the alpha-file filter.  The skip the claim
describes does not exist in `wallet_scorer.py`. -/
theorem C7_min_trades_unused :
    WalletScorer.min_trades = 5
    ∧ (WalletScorer.calculate_wallet_score
        { trustlines := [{ currency := "AAA", issuer := "rI1", wallet := "rW",
                           limit := "1000", timestamp := 0, txHash := "t1" }] }
        "rW" 99).1 = 4
    ∧ ((lookupKey (WalletScorer.calculate_wallet_score
        { trustlines := [{ currency := "AAA", issuer := "rI1", wallet := "rW",
                           limit := "1000", timestamp := 0, txHash := "t1" }] }
        "rW" 99).2.wallet_analysis "rW").bind (fun w => w.alphaScore)) = some 4
    ∧ WalletScorer.alpha_eligible (WalletScorer.calculate_wallet_score
        { trustlines := [{ currency := "AAA", issuer := "rI1", wallet := "rW",
                           limit := "1000", timestamp := 0, txHash := "t1" }],
          purchases := [{ currency := "AAA", issuer := "rI1", buyer := "rW",
                          seller := "rX", amount := 10, priceXrp := 1,
                          timestamp := 5, txHash := "p1" }],
          token_analysis := [(("AAA", "rI1"), { maxPrice := some 3 })] }
        "rW" 99).1 = true := by
  refine ⟨rfl, ?_, ?_, ?_⟩ <;> with_unfolding_all rfl

/-! ## Claim C8 — the score formula has no `min(10, ·)` clamp -/

/-- C8 (counterexample): a wallet with three trust-line records of the
same token (all early, equal timestamps so consistency is 1) scores
`3·4 + 0·4 + 1·2 = 14`: the final score is not `min(10, ...)` (which
would be 10) and lies outside `[0, 10]`. -/
theorem C8_counterexample :
    (WalletScorer.calculate_wallet_score
      { trustlines := [{ currency := "AAA", issuer := "rI1", wallet := "rW",
                         limit := "1000", timestamp := 0, txHash := "t1" },
                       { currency := "AAA", issuer := "rI1", wallet := "rW",
                         limit := "2000", timestamp := 0, txHash := "t2" },
                       { currency := "AAA", issuer := "rI1", wallet := "rW",
                         limit := "3000", timestamp := 0, txHash := "t3" }] }
      "rW" 5).1 = 14
    ∧ ¬ ((14 : ℚ) = min 10 14)
    ∧ ¬ ((14 : ℚ) ≤ 10) := by
  refine ⟨?_, by norm_num, by norm_num⟩
  with_unfolding_all rfl

/-- The spec's S6 scenario as a concrete store: wallet `rW` holds ten
distinct tokens `T1..T10` (trust lines one hour apart, so the gap standard
deviation is 0), eight of them at position ≤ 10 (tokens `T9`/`T10` have
ten earlier holders each), and six tokens with one buy at price 1 against
a stored max price of 3 (ROI 2 ≥ `min_roi`). -/
def s6DB : UtilsDB.DBState :=
  { trustlines :=
      (List.range 10).map (fun k =>
        { currency := "T" ++ toString (k+1), issuer := "rI", wallet := "rW",
          limit := "1000", timestamp := k * 3600, txHash := "h" ++ toString (k+1) })
      ++ (List.range 10).flatMap (fun j =>
        [{ currency := "T9", issuer := "rI", wallet := "rO" ++ toString j,
           limit := "1000", timestamp := 0, txHash := "o9x" ++ toString j },
         { currency := "T10", issuer := "rI", wallet := "rO" ++ toString j,
           limit := "1000", timestamp := 0, txHash := "o10x" ++ toString j }]),
    purchases :=
      (List.range 6).map (fun k =>
        { currency := "T" ++ toString (k+1), issuer := "rI", buyer := "rW",
          seller := "rX", amount := 10, priceXrp := 1, timestamp := 100 + k,
          txHash := "p" ++ toString (k+1) }),
    token_analysis :=
      (List.range 6).map (fun k =>
        (("T" ++ toString (k+1), "rI"), { maxPrice := some 3 })),
    wallet_analysis := [] }

/-- C8 (amended): the final score is exactly
`0.4·early_rate·10 + 0.4·trade_success_rate·10 + 0.2·consistency·10`,
with *no* `min(10, ·)` clamp, where the rates are the counts the code
computes over `max(#distinct trusted tokens, 1)`; on the spec's S6
scenario (early rate 0.8, trade success rate 0.6, consistency 1) the
score is exactly 7.6. -/
theorem C8_score_formula (db : UtilsDB.DBState) (wallet : String) (now : Nat) (n : Nat)
    (hne : UtilsDB.get_wallet_trustlines db wallet none ≠ [])
    (hts : WalletScorer.analyze_trading_success db wallet = some n) :
    ((WalletScorer.calculate_wallet_score db wallet now).1
      = (2/5 : ℚ)
          * ((WalletScorer.count_early_adoptions db
                (UtilsDB.get_wallet_trustlines db wallet none) : ℚ)
            / ((max ((UtilsDB.get_wallet_trustlines db wallet none).map
                  (fun t => (t.currency, t.issuer))).eraseDups.length 1 : Nat) : ℚ)) * 10
        + (2/5 : ℚ)
          * ((n : ℚ)
            / ((max ((UtilsDB.get_wallet_trustlines db wallet none).map
                  (fun t => (t.currency, t.issuer))).eraseDups.length 1 : Nat) : ℚ)) * 10
        + (1/5 : ℚ)
          * WalletScorer.calculate_consistency
              (UtilsDB.get_wallet_trustlines db wallet none) * 10)
    ∧ (WalletScorer.calculate_wallet_score s6DB "rW" 0).1 = 38/5 := by
  constructor
  · cases htl : UtilsDB.get_wallet_trustlines db wallet none with
    | nil => exact absurd htl hne
    | cons a as =>
      simp only [WalletScorer.calculate_wallet_score, htl, hts]
      ring
  · with_unfolding_all rfl

/-- C8 witness: the formula applied to a one-trust-line wallet with no
trades. -/
theorem C8_score_formula_witness :
    (WalletScorer.calculate_wallet_score
      { trustlines := [{ currency := "BBB", issuer := "rI2", wallet := "rV",
                         limit := "500", timestamp := 0, txHash := "w1" }] }
      "rV" 3).1
      = (2/5 : ℚ)
          * ((WalletScorer.count_early_adoptions
                { trustlines := [{ currency := "BBB", issuer := "rI2", wallet := "rV",
                                   limit := "500", timestamp := 0, txHash := "w1" }] }
                (UtilsDB.get_wallet_trustlines
                  { trustlines := [{ currency := "BBB", issuer := "rI2", wallet := "rV",
                                     limit := "500", timestamp := 0, txHash := "w1" }] }
                  "rV" none) : ℚ)
            / ((max ((UtilsDB.get_wallet_trustlines
                  { trustlines := [{ currency := "BBB", issuer := "rI2", wallet := "rV",
                                     limit := "500", timestamp := 0, txHash := "w1" }] }
                  "rV" none).map
                  (fun t => (t.currency, t.issuer))).eraseDups.length 1 : Nat) : ℚ)) * 10
        + (2/5 : ℚ)
          * (((0 : Nat) : ℚ)
            / ((max ((UtilsDB.get_wallet_trustlines
                  { trustlines := [{ currency := "BBB", issuer := "rI2", wallet := "rV",
                                     limit := "500", timestamp := 0, txHash := "w1" }] }
                  "rV" none).map
                  (fun t => (t.currency, t.issuer))).eraseDups.length 1 : Nat) : ℚ)) * 10
        + (1/5 : ℚ)
          * WalletScorer.calculate_consistency
              (UtilsDB.get_wallet_trustlines
                { trustlines := [{ currency := "BBB", issuer := "rI2", wallet := "rV",
                                   limit := "500", timestamp := 0, txHash := "w1" }] }
                "rV" none) * 10 :=
  (C8_score_formula
      { trustlines := [{ currency := "BBB", issuer := "rI2", wallet := "rV",
                         limit := "500", timestamp := 0, txHash := "w1" }] }
      "rV" 3 0 (by decide) (by decide)).1
